import Mathlib

/-!
Verification of the paystub compliance pipeline
(`server.py` / `server_new.py` of checkmychecks-cloud-backend).

Shallow embedding conventions:
* Python floats are modelled as exact rationals (`ℚ`); every numeric
  constant appearing in the claims (16.5, 1.5, 900/45, ...) is exactly
  representable, so no claim hinges on binary rounding.
* A Python value that may be `None` is an `Option`.
* Python code that can raise is modelled in `Except String`; the error
  string names the Python exception class.
* External collaborators (the `re` module, `float()`, cloud storage,
  the mailer, md5) are parameters of the embedded functions, so the
  theorems quantify over every possible behaviour of those libraries.
-/

/-- The extracted paystub facts (`parse_paystub_data` output viewed as a
typed record; `none` is Python `None`). -/
structure FieldRecord where
  employee_name : Option String
  net_pay : Option ℚ
  gross_pay : Option ℚ
  total_hours : Option ℚ
deriving Repr, DecidableEq

/-- The user supplied shift information (`user_input` dict of
`server_new.py`): keys `shifts_exceeded_10_hours` and
`exceeded_shifts_count` (the latter passed through `int(...)`). -/
structure ManualShiftInput where
  shifts_exceeded_10_hours : Bool
  exceeded_shifts_count : Int
deriving Repr, DecidableEq

/-- The environment-configured constants of `server_new.py`
(lines 27-30): MINIMUM_WAGE, OVERTIME_RATE, LONG_SHIFT_THRESHOLD,
LONG_SHIFT_BONUS. -/
structure Config where
  MINIMUM_WAGE : ℚ
  OVERTIME_RATE : ℚ
  LONG_SHIFT_THRESHOLD : ℚ
  LONG_SHIFT_BONUS : ℚ
deriving Repr, DecidableEq

/-- The default configuration of `server_new.py`: minimum wage 16.5,
overtime multiplier 1.5, long-shift threshold 10.0, bonus hours 1.0. -/
def defaultConfig : Config :=
  { MINIMUM_WAGE := 33 / 2
    OVERTIME_RATE := 3 / 2
    LONG_SHIFT_THRESHOLD := 10
    LONG_SHIFT_BONUS := 1 }

/-- The `checks` dict returned by
`PaystubProcessor.perform_compliance_checks` in `server_new.py`
(keys of lines 309-314 plus the conditionally added
`additional_pay_owed`, absent = key not in the dict). -/
structure ComplianceResult where
  minimum_wage : Bool
  overtime_compliant : Bool
  total_compensation_valid : Bool
  long_shift_additional_pay_violation : Bool
  additional_pay_owed : Option ℚ
deriving Repr, DecidableEq

/-- `PaystubProcessor._check_overtime_compliance` (`server_new.py`
lines 352-359). -/
def _check_overtime_compliance (cfg : Config) (hours hourly_rate gross_pay : ℚ) : Bool :=
  if hours ≤ 40 then
    true
  else
    let overtime_hours := hours - 40
    let overtime_pay := gross_pay - 40 * hourly_rate
    decide (overtime_hours * hourly_rate * cfg.OVERTIME_RATE ≤ overtime_pay)

/-- `PaystubProcessor.perform_compliance_checks` (`server_new.py`
lines 304-350).  `float(data.get(k, 0) or 0)` sends an absent or
`None` field to `0`, hence `Option.getD 0`. -/
def perform_compliance_checks (cfg : Config) (data : FieldRecord)
    (user_input : ManualShiftInput) : ComplianceResult :=
  let net_pay := data.net_pay.getD 0
  let total_hours := data.total_hours.getD 0
  let gross_pay := data.gross_pay.getD 0
  let total_compensation_valid := decide (0 < net_pay) && decide (0 < gross_pay)
  let mwotc :=
    if 0 < net_pay ∧ 0 < total_hours then
      let regular_hourly_rate :=
        if total_hours ≤ 40 then net_pay / total_hours else gross_pay / total_hours
      (decide (cfg.MINIMUM_WAGE ≤ regular_hourly_rate),
       _check_overtime_compliance cfg total_hours regular_hourly_rate gross_pay)
    else
      (false, false)
  let checks : ComplianceResult :=
    { minimum_wage := mwotc.1
      overtime_compliant := mwotc.2
      total_compensation_valid := total_compensation_valid
      long_shift_additional_pay_violation := false
      additional_pay_owed := none }
  if user_input.shifts_exceeded_10_hours = true ∧ 0 < user_input.exceeded_shifts_count then
    { checks with
        long_shift_additional_pay_violation := true
        additional_pay_owed :=
          some ((user_input.exceeded_shifts_count : ℚ) * cfg.MINIMUM_WAGE * cfg.LONG_SHIFT_BONUS) }
  else
    checks

/-- Python division: raises `ZeroDivisionError` on a zero denominator. -/
def divE (a b : ℚ) : Except String ℚ :=
  if b = 0 then Except.error ("ZeroDivisionError") else Except.ok (a / b)

/-- `perform_compliance_checks` of `server_new.py` with its one
fallible operation (the division computing `regular_hourly_rate`)
modelled explicitly, to settle whether the evaluator can raise. -/
def perform_compliance_checksE (cfg : Config) (data : FieldRecord)
    (user_input : ManualShiftInput) : Except String ComplianceResult :=
  let net_pay := data.net_pay.getD 0
  let total_hours := data.total_hours.getD 0
  let gross_pay := data.gross_pay.getD 0
  let total_compensation_valid := decide (0 < net_pay) && decide (0 < gross_pay)
  let mwotcE : Except String (Bool × Bool) :=
    if 0 < net_pay ∧ 0 < total_hours then
      match (if total_hours ≤ 40 then divE net_pay total_hours else divE gross_pay total_hours) with
      | Except.error e => Except.error e
      | Except.ok regular_hourly_rate =>
          Except.ok (decide (cfg.MINIMUM_WAGE ≤ regular_hourly_rate),
            _check_overtime_compliance cfg total_hours regular_hourly_rate gross_pay)
    else
      Except.ok (false, false)
  match mwotcE with
  | Except.error e => Except.error e
  | Except.ok mwotc =>
      let checks : ComplianceResult :=
        { minimum_wage := mwotc.1
          overtime_compliant := mwotc.2
          total_compensation_valid := total_compensation_valid
          long_shift_additional_pay_violation := false
          additional_pay_owed := none }
      if user_input.shifts_exceeded_10_hours = true ∧ 0 < user_input.exceeded_shifts_count then
        Except.ok { checks with
          long_shift_additional_pay_violation := true
          additional_pay_owed :=
            some ((user_input.exceeded_shifts_count : ℚ) * cfg.MINIMUM_WAGE * cfg.LONG_SHIFT_BONUS) }
      else
        Except.ok checks

/-! ### The legacy evaluator of `server.py`

`server.py` reads the raw dict values (`data.get('net_pay', 0)`,
line 367) with no `None` guard, so a comparison or an arithmetic
operation on an unmatched field hits Python `None` and raises
`TypeError`.  The operations below model the Python semantics of
comparing, subtracting and dividing a possibly-`None` value. -/

/-- Python `a > b` where `a` may be `None` (raises `TypeError`). -/
def pyGtNum (a : Option ℚ) (b : ℚ) : Except String Bool :=
  match a with
  | none => Except.error ("TypeError")
  | some q => Except.ok (decide (b < q))

/-- Python `a <= b` where `a` may be `None` (raises `TypeError`). -/
def pyLeNum (a : Option ℚ) (b : ℚ) : Except String Bool :=
  match a with
  | none => Except.error ("TypeError")
  | some q => Except.ok (decide (q ≤ b))

/-- Python `a / b` where either side may be `None`. -/
def pyDivNum (a b : Option ℚ) : Except String ℚ :=
  match a, b with
  | some x, some y => if y = 0 then Except.error ("ZeroDivisionError") else Except.ok (x / y)
  | _, _ => Except.error ("TypeError")

/-- Python `a - b` where `a` may be `None` (raises `TypeError`). -/
def pySubNum (a : Option ℚ) (b : ℚ) : Except String ℚ :=
  match a with
  | none => Except.error ("TypeError")
  | some q => Except.ok (q - b)

/-- The `checks` dict of `server.py`'s `perform_compliance_checks`
(lines 360-364): no long-shift keys in the legacy version. -/
structure ChecksOld where
  minimum_wage : Bool
  overtime_compliant : Bool
  total_compensation_valid : Bool
deriving Repr, DecidableEq

/-- `PaystubProcessor.is_total_compensation_valid` (`server.py`
lines 339-349): `net_pay > 0 and gross_pay > 0` with Python's
short-circuit `and`. -/
def is_total_compensation_valid (net_pay gross_pay : Option ℚ) : Except String Bool := do
  let a ← pyGtNum net_pay 0
  if a then pyGtNum gross_pay 0 else pure false

/-- `PaystubProcessor.perform_compliance_checks` of `server.py`
(lines 351-390).  Field values are the raw dict entries (possibly
`None`); every comparison, division and subtraction goes through the
fallible Python operations above.  `server.py` hardcodes the 1.5
overtime multiplier but reads MINIMUM_WAGE from the environment; both
are taken from `cfg` here. -/
def perform_compliance_checks_old (cfg : Config) (data : FieldRecord) :
    Except String ChecksOld := do
  let net_pay := data.net_pay
  let total_hours := data.total_hours
  let gross_pay := data.gross_pay
  let cond ← do
    let a ← pyGtNum net_pay 0
    if a then pyGtNum total_hours 0 else pure false
  let mwotc ←
    if cond then do
      let hle ← pyLeNum total_hours 40
      let regular_hourly_rate ←
        if hle then pyDivNum net_pay total_hours else pyDivNum gross_pay total_hours
      let mw := decide (cfg.MINIMUM_WAGE ≤ regular_hourly_rate)
      let hgt ← pyGtNum total_hours 40
      if hgt then do
        let overtime_hours ← pySubNum total_hours 40
        let overtime_pay ← pySubNum gross_pay (40 * regular_hourly_rate)
        pure (mw, decide (overtime_hours * regular_hourly_rate * cfg.OVERTIME_RATE ≤ overtime_pay))
      else
        pure (mw, true)
    else
      pure (false, false)
  let tcv ← is_total_compensation_valid net_pay gross_pay
  pure { minimum_wage := mwotc.1, overtime_compliant := mwotc.2, total_compensation_valid := tcv }

/-! ### The pattern extractor (`parse_paystub_data`)

`server.py` (lines 278-337) and `server_new.py` (lines 274-302) contain
the identical extraction loop; `server_new.py` merely lifts the pattern
table to the class constant `PATTERNS` (lines 173-194).  The `re`
module and Python `float()` are external libraries, so the embedding is
parameterized by a matcher (`pattern -> text -> captured group 1`) and
a numeric coercion (`string -> parsed number`, `none` = `ValueError`);
the theorems quantify over both. -/

/-- A value stored in the `results` dict: the employee name string or a
parsed float. -/
inductive PVal where
  | str (s : String)
  | num (q : ℚ)
deriving Repr, DecidableEq

/-- `PaystubProcessor.PATTERNS` (`server_new.py` lines 173-194), in the
dict insertion order the extraction loop iterates in. -/
def PATTERNS : List (String × List String) :=
  [("employee_name",
    [r"EMPLOYEE\s*NAME:\s*([\w\s]+)",
     r"NAME:\s*([\w\s]+)",
     r"EMPLOYEE:\s*([\w\s]+)"]),
   ("net_pay",
    [r"NET\s*PAY:\s*\$?([\d,]+\.\d{2})",
     r"NET\s*PAY\s*\$?([\d,]+\.\d{2})",
     r"TOTAL\s*NET\s*PAY:\s*\$?([\d,]+\.\d{2})"]),
   ("total_hours",
    [r"TOTAL\s*HOURS:\s*([\d.]+)",
     r"HOURS\s*WORKED:\s*([\d.]+)",
     r"HOURS:\s*([\d.]+)"]),
   ("gross_pay",
    [r"GROSS\s*PAY:\s*\$?([\d,]+\.\d{2})",
     r"GROSS\s*EARNINGS:\s*\$?([\d,]+\.\d{2})",
     r"TOTAL\s*GROSS:\s*\$?([\d,]+\.\d{2})"])]

/-- `value = match.group(1).replace(',', '')`. -/
def stripCommas (s : String) : String :=
  String.mk (s.data.filter (fun c => c ≠ ','))

/-- The inner loop of `parse_paystub_data` for one field: try the
patterns in order; on a match, strip commas and coerce (`float(value)`
for numeric fields, `value.strip()` for the name); a `ValueError`
falls through to the next pattern; the first successful coercion wins
(`break`).  `none` = the field ends up recorded as `None`. -/
def tryPatterns (m : String → String → Option String) (toF : String → Option ℚ)
    (key : String) : List String → String → Option PVal
  | [], _ => none
  | p :: rest, text =>
    match m p text with
    | none => tryPatterns m toF key rest text
    | some captured =>
        let value := stripCommas captured
        if key = "employee_name" then
          some (PVal.str value.trim)
        else
          match toF value with
          | some q => some (PVal.num q)
          | none => tryPatterns m toF key rest text

/-- `PaystubProcessor.parse_paystub_data`: empty text returns the empty
dict; otherwise every field of `PATTERNS` gets exactly one entry, the
first coercible match or `None`.  The dict is an association list in
insertion order. -/
def parse_paystub_data (m : String → String → Option String) (toF : String → Option ℚ)
    (text : String) : List (String × Option PVal) :=
  if text = "" then []
  else
    PATTERNS.foldl (fun results kp => results ++ [(kp.1, tryPatterns m toF kp.1 kp.2 text)]) []

/-- Dict lookup: `none` = key missing, `some none` = key present with
value `None`. -/
def dlookup : List (String × Option PVal) → String → Option (Option PVal)
  | [], _ => none
  | (k, v) :: rest, key => if k = key then some v else dlookup rest key

/-- The spec-side characterization of one field's extraction ("the
first pattern in the list that matches anywhere in the text and whose
match coerces to the field's type wins"), written with
`List.findSome?` to compare against the source loop `tryPatterns`. -/
def coerceCapture (toF : String → Option ℚ) (key : String) (captured : String) : Option PVal :=
  let value := stripCommas captured
  if key = "employee_name" then some (PVal.str value.trim)
  else (toF value).map PVal.num

/-- View of the parse dict as a typed `FieldRecord` (a numeric field is
present exactly when its key holds a parsed number). -/
def fieldRecordOf (d : List (String × Option PVal)) : FieldRecord :=
  { employee_name :=
      match dlookup d ("employee_name") with
      | some (some (PVal.str s)) => some s
      | _ => none
    net_pay :=
      match dlookup d ("net_pay") with
      | some (some (PVal.num q)) => some q
      | _ => none
    gross_pay :=
      match dlookup d ("gross_pay") with
      | some (some (PVal.num q)) => some q
      | _ => none
    total_hours :=
      match dlookup d ("total_hours") with
      | some (some (PVal.num q)) => some q
      | _ => none }

/-! ### Report currency rendering (`generate_compliance_report`, `server_new.py` lines 393-407) -/

/-- Model of the Python format `f"{x:.2f}"` on an exact rational:
scale by 100, round to an integer, print with two forced decimals.
(CPython rounds the underlying double half-to-even; the tie-breaking
mode is irrelevant to every statement proved below.) -/
def fmt2 (q : ℚ) : String :=
  let c : Int := round (q * 100)
  let n := c.natAbs
  (if c < 0 then "-" else "") ++ toString (n / 100) ++ "." ++
    (if n % 100 < 10 then "0" else "") ++ toString (n % 100)

/-- The currency formatting block of `generate_compliance_report`
(`server_new.py` lines 393-404), one currency field at a time.  The
input is `employee_data.get(key, 'N/A')` split by case: key missing
(`none`, the `.get` default `'N/A'` survives), key present with value
`None` (`some none`, formatted by the f-string as `$None`), a number
(`$` plus two decimals), or a string. -/
def renderCurrency (cell : Option (Option PVal)) : String :=
  match cell with
  | none => "N/A"
  | some none => "$None"
  | some (some (PVal.num q)) => "$" ++ fmt2 q
  | some (some (PVal.str s)) => if s = "N/A" then "N/A" else "$" ++ s

/-! ### The job orchestrators -/

/-- External collaborator outcomes for one run of the background
pipeline `process_paystub_async` (`server_new.py` lines 696-785):
the storage download (`download_pdf`, `none` = failure), the text
extractor (`extract_pdf_text` applied to the downloaded path), the
regex matcher and float parser used by `parse_paystub_data`, the
report generator (`none` = `generate_compliance_report` raised), and
the mailer verdict (`send_email_report`). -/
structure PipelineEnv where
  download_result : Option String
  extract_result : String → String
  matcher : String → String → Option String
  toFloat : String → Option ℚ
  report_result : Option String
  email_sent : Bool

/-- `process_paystub_async` (`server_new.py` lines 696-785), returning
the final status string written to the status store: each failing step
writes `failed` and returns; a raising step is caught by the outer
handler which writes `failed`; after a generated report, the mailer
verdict decides `completed` versus `completed_with_errors`. -/
def process_paystub_async (cfg : Config) (env : PipelineEnv)
    (user_input : ManualShiftInput) : String :=
  match env.download_result with
  | none => "failed"
  | some pdf_path =>
    let text := env.extract_result pdf_path
    if text = "" then "failed"
    else
      let data := parse_paystub_data env.matcher env.toFloat text
      if data = [] then "failed"
      else
        let _compliance_results := perform_compliance_checks cfg (fieldRecordOf data) user_input
        match env.report_result with
        | none => "failed"
        | some _report_path =>
            if env.email_sent then "completed" else "completed_with_errors"

/-- External collaborator outcomes for the legacy synchronous handler
`process_paystub` of `server.py` (lines 596-690): additionally the
email validator verdict (empty string = valid) and whether the
generated report file exists on disk (the `os.path.exists` check,
also covering a raising generator caught by the outer handler). -/
structure PipelineEnvOld where
  email_error : String
  download_result : Option String
  extract_result : String → String
  matcher : String → String → Option String
  toFloat : String → Option ℚ
  report_exists : Bool
  email_sent : Bool

/-- The legacy `process_paystub` handler of `server.py`
(lines 596-690), returning the final status written to the status
store.  Note lines 659-662: a mailer failure is recorded as `failed`,
not `completed_with_errors`.  A `TypeError` escaping the legacy
evaluator is caught by the handler of line 677, which writes
`failed`. -/
def process_paystub_old (cfg : Config) (env : PipelineEnvOld) : String :=
  if env.email_error ≠ "" then "failed"
  else
    match env.download_result with
    | none => "failed"
    | some pdf_path =>
      let text := env.extract_result pdf_path
      if text = "" then "failed"
      else
        let data := parse_paystub_data env.matcher env.toFloat text
        if data = [] then "failed"
        else
          match perform_compliance_checks_old cfg (fieldRecordOf data) with
          | Except.error _ => "failed"
          | Except.ok _compliance_results =>
              if env.report_exists = false then "failed"
              else if env.email_sent = false then "failed"
              else "completed"

/-! ### Document identifiers (`generate_document_id`, `server_new.py` lines 517-533) -/

/-- Python `str.split(sep)` for a one-character separator, on the
character list: splitting never yields an empty list and keeps empty
segments. -/
def splitOnChar (c : Char) : List Char → List (List Char)
  | [] => [[]]
  | x :: xs =>
    match splitOnChar c xs with
    | [] => [[]]
    | g :: gs => if x = c then [] :: (g :: gs) else (x :: g) :: gs

/-- Python `file_url.split('/')`. -/
def pySplit (sep : Char) (s : String) : List String :=
  (splitOnChar sep s.data).map (fun l => String.mk l)

/-- `PaystubProcessor.generate_document_id` (`server_new.py`
lines 517-533), with the `hashlib.md5(...).hexdigest()` call abstract:
normalize the URL to its last two slash-separated segments
(`'/'.join(parts[-2:])` when it contains a slash and splits into at
least two parts) and hash the normalized string. -/
def generate_document_id (md5 : String → String) (file_url : String) : String :=
  let normalized_url :=
    if file_url.data.contains ('/') then
      let parts := pySplit ('/') file_url
      if 2 ≤ parts.length then String.intercalate ("/") (parts.drop (parts.length - 2))
      else file_url
    else file_url
  md5 normalized_url

/-- The last two slash-separated segments of a handle (`parts[-2:]`),
used to state the collision claim. -/
def lastTwoSegments (file_url : String) : List String :=
  let parts := pySplit ('/') file_url
  parts.drop (parts.length - 2)

/-- `PaystubProcessor.update_processing_status` (`server_new.py`
lines 535-553) viewed through the status store: `doc_ref.set` writes
the record at the document id derived from the handle, overwriting
whatever was there. -/
def update_processing_status (md5 : String → String) (store : String → Option String)
    (file_url status : String) : String → Option String :=
  fun k => if k = generate_document_id md5 file_url then some status else store k

/-! ### Concrete collaborator instances used by the witnesses below -/

/-- A matcher behaviour in which only the first `net_pay` pattern
matches, capturing a value with a thousands separator. -/
def mWitness : String → String → Option String :=
  fun p _text => if p = r"NET\s*PAY:\s*\$?([\d,]+\.\d{2})" then some ("1,234.56") else none

/-- A float parser behaviour accepting exactly the comma-stripped
capture of `mWitness`. -/
def toFWitness : String → Option ℚ :=
  fun s => if s = "1234.56" then some (123456 / 100) else none

/-- A pipeline run of `server_new.py` in which download, extraction,
parsing and report generation succeed and the mailer fails. -/
def envWitness : PipelineEnv :=
  { download_result := some ("paystub_uploads/x.pdf")
    extract_result := fun _ => "SOME TEXT"
    matcher := fun _ _ => none
    toFloat := fun _ => none
    report_result := some ("/tmp/report.pdf")
    email_sent := false }

/-- A matcher behaviour for the legacy-pipeline run: only the first
`net_pay` pattern matches. -/
def mCex : String → String → Option String :=
  fun p _text => if p = r"NET\s*PAY:\s*\$?([\d,]+\.\d{2})" then some ("0.00") else none

/-- A float parser behaviour accepting exactly the capture of `mCex`. -/
def toFCex : String → Option ℚ :=
  fun s => if s = "0.00" then some 0 else none

/-- A run of the legacy `server.py` handler in which every pipeline
step up to and including report generation succeeds and only the
mailer fails. -/
def envCex : PipelineEnvOld :=
  { email_error := ""
    download_result := some ("paystub_uploads/x.pdf")
    extract_result := fun _ => "NET PAY: $0.00"
    matcher := mCex
    toFloat := toFCex
    report_exists := true
    email_sent := false }

/-! ## Helper lemmas -/

/-- The `total_compensation_valid` entry of the `server_new.py`
evaluator is the boolean `net_pay > 0 and gross_pay > 0` on the
zero-defaulted values, whatever the long-shift branch does. -/
theorem tcv_eq (cfg : Config) (fr : FieldRecord) (mi : ManualShiftInput) :
    (perform_compliance_checks cfg fr mi).total_compensation_valid
      = (decide (0 < fr.net_pay.getD 0) && decide (0 < fr.gross_pay.getD 0)) := by
  unfold perform_compliance_checks
  split <;> rfl

/-- The inner pattern loop is first-coercible-match-wins: it returns
exactly `List.findSome?` of match-then-coerce over the ordered
pattern list. -/
theorem tryPatterns_eq_findSome (m : String → String → Option String) (toF : String → Option ℚ)
    (key text : String) : ∀ plist : List String,
    tryPatterns m toF key plist text
      = plist.findSome? (fun p => (m p text).bind (coerceCapture toF key))
  | [] => rfl
  | p :: rest => by
    have ih := tryPatterns_eq_findSome m toF key text rest
    cases hm : m p text with
    | none =>
        simp only [tryPatterns, hm, List.findSome?_cons, Option.none_bind]
        exact ih
    | some captured =>
        simp only [tryPatterns, hm, List.findSome?_cons, Option.some_bind]
        by_cases hk : key = "employee_name"
        · have hhead : coerceCapture toF key captured
              = some (PVal.str (stripCommas captured).trim) := by
            simp [coerceCapture, hk]
          rw [hhead]
          simp [hk]
        · cases htf : toF (stripCommas captured) with
          | some q =>
              have hhead : coerceCapture toF key captured = some (PVal.num q) := by
                simp [coerceCapture, hk, htf]
              rw [hhead]
              simp [hk, htf]
          | none =>
              have hhead : coerceCapture toF key captured = none := by
                simp [coerceCapture, hk, htf]
              rw [hhead]
              simp only [if_neg hk, htf]
              exact ih

/-- The inner pattern loop for one field only consults the matcher on
that field's own patterns: matchers agreeing there give the same
outcome. -/
theorem tryPatterns_congr (m m' : String → String → Option String) (toF : String → Option ℚ)
    (key text : String) : ∀ plist : List String,
    (∀ p ∈ plist, m p text = m' p text) →
    tryPatterns m toF key plist text = tryPatterns m' toF key plist text
  | [], _ => rfl
  | p :: rest, hagree => by
    unfold tryPatterns
    rw [hagree p (List.mem_cons_self p rest)]
    have hrest := tryPatterns_congr m m' toF key text rest
      (fun q hq => hagree q (List.mem_cons_of_mem p hq))
    cases m' p text with
    | none => exact hrest
    | some captured =>
        by_cases hk : key = "employee_name"
        · simp [hk]
        · simp only [if_neg hk]
          cases toF (stripCommas captured) with
          | none => exact hrest
          | some q => rfl

/-- Splitting a character list never yields the empty list. -/
theorem splitOnChar_ne_nil (c : Char) : ∀ l : List Char, splitOnChar c l ≠ []
  | [] => by simp [splitOnChar]
  | x :: xs => by
    unfold splitOnChar
    cases h : splitOnChar c xs with
    | nil => simp
    | cons g gs => by_cases hx : x = c <;> simp [hx]

/-- A list containing the separator splits into at least two parts. -/
theorem two_le_splitOnChar_length (c : Char) :
    ∀ l : List Char, c ∈ l → 2 ≤ (splitOnChar c l).length
  | x :: xs, h => by
    unfold splitOnChar
    cases hs : splitOnChar c xs with
    | nil => exact absurd hs (splitOnChar_ne_nil c xs)
    | cons g gs =>
      by_cases hx : x = c
      · simp [hx]
      · have hxs : c ∈ xs := by
          rcases List.mem_cons.mp h with h1 | h1
          · exact absurd h1.symm hx
          · exact h1
        have h2 := two_le_splitOnChar_length c xs hxs
        rw [hs] at h2
        simp [hx] at h2 ⊢
        omega

/-- On a handle containing a slash, `generate_document_id` hashes
exactly the join of the last two slash-separated segments. -/
theorem generate_document_id_normalized (md5 : String → String) (u : String)
    (hu : u.data.contains ('/') = true) :
    generate_document_id md5 u = md5 (String.intercalate ("/") (lastTwoSegments u)) := by
  have hmem : ('/') ∈ u.data := by simpa using hu
  have hlen : 2 ≤ (pySplit ('/') u).length := by
    unfold pySplit
    rw [List.length_map]
    exact two_le_splitOnChar_length ('/') u.data hmem
  unfold generate_document_id lastTwoSegments
  rw [if_pos hu, if_pos hlen]

/-! ## Claims -/

/-- C1 (amended): for every field record and every manual shift input,
the `server_new.py` evaluator terminates normally and returns a result
record without raising — its exception-aware model always returns
`Except.ok` of the pure result, in particular when `net_pay`,
`gross_pay` or `total_hours` is absent (the `float(... or 0)` coercion
sends them to 0 and the positivity guard protects the division).  The
claim as stated over both cited evaluators is refuted by
`C1_counterexample` on the legacy `server.py` evaluator. -/
theorem C1_evaluator_never_raises (cfg : Config) (data : FieldRecord) (ui : ManualShiftInput) :
    perform_compliance_checksE cfg data ui = Except.ok (perform_compliance_checks cfg data ui) := by
  have hdiv : ∀ a b : ℚ, 0 < b → divE a b = Except.ok (a / b) := by
    intro a b hb
    simp [divE, ne_of_gt hb]
  unfold perform_compliance_checksE perform_compliance_checks
  by_cases h : 0 < data.net_pay.getD 0 ∧ 0 < data.total_hours.getD 0
  · simp only [if_pos h]
    by_cases h40 : data.total_hours.getD 0 ≤ 40
    · simp only [if_pos h40, hdiv _ _ h.2, apply_ite Except.ok]
    · simp only [if_neg h40, hdiv _ _ h.2, apply_ite Except.ok]
  · simp only [if_neg h, apply_ite Except.ok]

/-- C1 counterexample: the legacy `server.py` evaluator raises
`TypeError` on the record whose fields are all absent (every
comparison `None > 0` raises), so the claim "the compliance evaluator
never raises, even when net_pay, gross_pay, or total_hours is absent"
is false of the evaluator cited at `server.py` lines 351-390. -/
theorem C1_counterexample :
    perform_compliance_checks_old defaultConfig ⟨none, none, none, none⟩
      = Except.error ("TypeError") := by
  rfl

/-- C2 (amended): when `net_pay` is absent or non-positive, or
`total_hours` is absent or non-positive, both rate-based checks of the
`server_new.py` evaluator are false.  (The claim as stated also forced
both checks false when only `gross_pay` is absent; `C2_counterexample`
refutes that.) -/
theorem C2_missing_data_not_compliant (cfg : Config) (fr : FieldRecord) (mi : ManualShiftInput)
    (hbad : fr.net_pay.getD 0 ≤ 0 ∨ fr.total_hours.getD 0 ≤ 0) :
    (perform_compliance_checks cfg fr mi).minimum_wage = false ∧
    (perform_compliance_checks cfg fr mi).overtime_compliant = false := by
  have hneg : ¬(0 < fr.net_pay.getD 0 ∧ 0 < fr.total_hours.getD 0) := by
    rcases hbad with hb | hb
    · exact fun hc => absurd hc.1 (not_lt.mpr hb)
    · exact fun hc => absurd hc.2 (not_lt.mpr hb)
  unfold perform_compliance_checks
  simp only [if_neg hneg]
  refine ⟨?_, ?_⟩ <;> split <;> rfl

/-- C2 witness: on the all-absent record the amended theorem applies
and `minimum_wage` is false. -/
theorem C2_witness :
    (perform_compliance_checks defaultConfig ⟨none, none, none, none⟩ ⟨false, 0⟩).minimum_wage
      = false := by
  exact (C2_missing_data_not_compliant defaultConfig ⟨none, none, none, none⟩ ⟨false, 0⟩
    (Or.inl (by simp))).1

/-- C2 counterexample: a record with `gross_pay` absent but
`net_pay = 800` and `total_hours = 40` present is classified
compliant by both rate-based checks (rate 20 ≥ 16.5, hours ≤ 40), so
absence of `gross_pay` does not default them to false as the claim
states. -/
theorem C2_counterexample :
    ((⟨none, some 800, none, some 40⟩ : FieldRecord).gross_pay = none) ∧
    (perform_compliance_checks defaultConfig ⟨none, some 800, none, some 40⟩
        ⟨false, 0⟩).minimum_wage = true ∧
    (perform_compliance_checks defaultConfig ⟨none, some 800, none, some 40⟩
        ⟨false, 0⟩).overtime_compliant = true := by
  refine ⟨rfl, ?_, ?_⟩ <;>
    simp only [perform_compliance_checks, defaultConfig, Option.getD,
      _check_overtime_compliance] <;>
    norm_num

/-- C3: with `net_pay` present and positive and `total_hours` present
and positive, the evaluator computes `regular_rate` as
`net_pay / total_hours` for at most 40 hours and
`gross_pay / total_hours` above 40, sets `minimum_wage` to
`regular_rate ≥ configured minimum wage`, and sets
`overtime_compliant` to true for at most 40 hours, else to
`gross_pay − 40·rate ≥ (total_hours − 40)·rate·overtime multiplier`. -/
theorem C3_rate_checks_formula (cfg : Config) (fr : FieldRecord) (mi : ManualShiftInput)
    (n h g : ℚ) (hn : fr.net_pay = some n) (hn0 : 0 < n)
    (hh : fr.total_hours = some h) (hh0 : 0 < h)
    (hg : fr.gross_pay = some g) :
    (perform_compliance_checks cfg fr mi).minimum_wage
      = decide (cfg.MINIMUM_WAGE ≤ (if h ≤ 40 then n / h else g / h)) ∧
    (perform_compliance_checks cfg fr mi).overtime_compliant
      = (if h ≤ 40 then true
         else decide ((h - 40) * (g / h) * cfg.OVERTIME_RATE ≤ g - 40 * (g / h))) := by
  unfold perform_compliance_checks _check_overtime_compliance
  rw [hn, hh, hg]
  simp only [Option.getD_some]
  have hcond : 0 < n ∧ 0 < h := ⟨hn0, hh0⟩
  simp only [if_pos hcond]
  by_cases h40 : h ≤ 40
  · simp only [if_pos h40]
    refine ⟨?_, ?_⟩ <;> split <;> rfl
  · simp only [if_neg h40]
    refine ⟨?_, ?_⟩ <;> split <;> rfl

/-- C3 witness: the spec example `total_hours = 45`,
`gross_pay = 900` (with `net_pay = 500`): rate 20, actual overtime pay
100 < required 150, so `overtime_compliant` is false. -/
theorem C3_witness :
    (perform_compliance_checks defaultConfig ⟨none, some 500, some 900, some 45⟩
        ⟨false, 0⟩).overtime_compliant = false := by
  have hmain := C3_rate_checks_formula defaultConfig ⟨none, some 500, some 900, some 45⟩
    ⟨false, 0⟩ 500 45 900 rfl (by norm_num) rfl (by norm_num) rfl
  rw [hmain.2]
  norm_num [defaultConfig]

/-- C4: the evaluator reports a long-shift violation with
`additional_pay_owed = count × minimum wage × bonus hours` exactly
when the user confirmed long shifts with a positive count, and
otherwise reports no violation with `additional_pay_owed` absent; at
count 3, wage 16.5 and bonus 1.0 the owed amount is 49.50. -/
theorem C4_long_shift_rule (cfg : Config) (fr : FieldRecord) (mi : ManualShiftInput) :
    (perform_compliance_checks cfg fr mi).long_shift_additional_pay_violation
      = (mi.shifts_exceeded_10_hours && decide (0 < mi.exceeded_shifts_count)) ∧
    (perform_compliance_checks cfg fr mi).additional_pay_owed
      = (if mi.shifts_exceeded_10_hours = true ∧ 0 < mi.exceeded_shifts_count
         then some ((mi.exceeded_shifts_count : ℚ) * cfg.MINIMUM_WAGE * cfg.LONG_SHIFT_BONUS)
         else none) ∧
    (perform_compliance_checks defaultConfig ⟨none, none, none, none⟩
        ⟨true, 3⟩).additional_pay_owed = some (99 / 2) := by
  refine ⟨?_, ?_, ?_⟩
  · unfold perform_compliance_checks
    by_cases hc : mi.shifts_exceeded_10_hours = true ∧ 0 < mi.exceeded_shifts_count
    · simp [if_pos hc, hc.1, hc.2]
    · simp only [if_neg hc]
      cases hb : mi.shifts_exceeded_10_hours <;> simp_all
  · unfold perform_compliance_checks
    by_cases hc : mi.shifts_exceeded_10_hours = true ∧ 0 < mi.exceeded_shifts_count
    · simp [if_pos hc]
    · simp [if_neg hc]
  · simp only [perform_compliance_checks, defaultConfig, Option.getD]
    norm_num

/-- C5: in a full parse of non-empty text, the outcome for each of the
four fields equals first-coercible-match semantics over that field's
own ordered pattern list (`List.findSome?` of match-then-coerce, so a
match failing numeric coercion only moves on to the next pattern of
the same field), under any matcher agreeing with the actual one on
that list — so the other fields' patterns and outcomes are
irrelevant to it. -/
theorem C5_first_coercible_match_wins (m m' : String → String → Option String)
    (toF : String → Option ℚ) (text key : String) (plist : List String)
    (hmem : (key, plist) ∈ PATTERNS) (htext : text ≠ "")
    (hagree : ∀ p ∈ plist, m p text = m' p text) :
    dlookup (parse_paystub_data m toF text) key
      = some (plist.findSome? (fun p => (m' p text).bind (coerceCapture toF key))) := by
  rw [← tryPatterns_eq_findSome, ← tryPatterns_congr m m' toF key text plist hagree]
  fin_cases hmem <;> simp [parse_paystub_data, PATTERNS, htext, dlookup]

/-- C5 witness: with a matcher behaviour in which only the first
`net_pay` pattern matches, capturing `1,234.56`, the parse records
`net_pay = 1234.56` (thousands separator stripped before coercion). -/
theorem C5_witness :
    dlookup (parse_paystub_data mWitness toFWitness ("MY PAY STUB")) ("net_pay")
      = some (some (PVal.num (123456 / 100))) := by
  have h := C5_first_coercible_match_wins mWitness mWitness toFWitness ("MY PAY STUB")
    ("net_pay")
    [r"NET\s*PAY:\s*\$?([\d,]+\.\d{2})", r"NET\s*PAY\s*\$?([\d,]+\.\d{2})",
     r"TOTAL\s*NET\s*PAY:\s*\$?([\d,]+\.\d{2})"]
    (by simp [PATTERNS]) (by decide) (fun p _ => rfl)
  rw [h]
  rfl

/-- C6 (amended): in the background orchestrator of `server_new.py`
(`process_paystub_async`), when download, text extraction, parsing and
report generation succeed, the final recorded status is `completed`
when mail dispatch succeeds and `completed_with_errors` when the
mailer reports failure.  (The legacy synchronous handler of
`server.py` instead records `failed` on mailer failure;
`C6_counterexample` refutes the claim as stated for it.) -/
theorem C6_mailer_failure_status (cfg : Config) (env : PipelineEnv) (ui : ManualShiftInput)
    (pdf_path rpath : String)
    (hdl : env.download_result = some pdf_path)
    (htext : env.extract_result pdf_path ≠ "")
    (hreport : env.report_result = some rpath) :
    process_paystub_async cfg env ui
      = (if env.email_sent then "completed" else "completed_with_errors") := by
  unfold process_paystub_async
  rw [hdl]
  have hdata : parse_paystub_data env.matcher env.toFloat (env.extract_result pdf_path) ≠ [] := by
    simp [parse_paystub_data, htext, PATTERNS]
  simp only [if_neg htext, if_neg hdata, hreport]

/-- C6 witness: a concrete run of the `server_new.py` pipeline with
every step succeeding and the mailer failing records
`completed_with_errors`. -/
theorem C6_witness :
    process_paystub_async defaultConfig envWitness ⟨false, 0⟩ = "completed_with_errors" := by
  have h := C6_mailer_failure_status defaultConfig envWitness ⟨false, 0⟩
    ("paystub_uploads/x.pdf") ("/tmp/report.pdf") rfl (by decide) rfl
  rw [h]
  rfl

/-- C6 counterexample: a concrete run of the legacy `server.py`
handler in which download, extraction, parsing and report generation
all succeed and only the mailer fails records status `failed`, not
`completed_with_errors`, refuting the claim as stated for the
orchestrator cited at `server.py` lines 657-665. -/
theorem C6_counterexample :
    process_paystub_old defaultConfig envCex = "failed" ∧
    ("failed" : String) ≠ "completed_with_errors" := by
  constructor
  · rfl
  · decide

/-- C7: on empty input text the extractor returns the empty record —
for every matcher and float-parser behaviour the result is the empty
dict (so no pattern is ever consulted), and as a `FieldRecord` all
four fields are absent. -/
theorem C7_empty_text_all_absent :
    (∀ (m : String → String → Option String) (toF : String → Option ℚ),
      parse_paystub_data m toF ("") = []) ∧
    (∀ (m : String → String → Option String) (toF : String → Option ℚ),
      fieldRecordOf (parse_paystub_data m toF ("")) = FieldRecord.mk none none none none) := by
  constructor <;> intro m toF <;> rfl

/-- C8 (code bug): a record whose `gross_pay` could not be extracted
reaches the report with the key present and value `None`
(`results[key] = None` in `parse_paystub_data`), so the
`employee_data.get(key, 'N/A')` default never fires and the absent
currency field is rendered as the fabricated string `$None` instead
of the `N/A` placeholder the code and spec intend. -/
theorem C8_absent_currency_renders_none :
    dlookup (parse_paystub_data (fun _ _ => none) (fun _ => none) ("GROSS PAY UNREADABLE"))
        ("gross_pay") = some none ∧
    renderCurrency (dlookup (parse_paystub_data (fun _ _ => none) (fun _ => none)
        ("GROSS PAY UNREADABLE")) ("gross_pay")) = "$None" := by
  exact ⟨rfl, rfl⟩

/-- C9: the evaluator returns `total_compensation_valid = true` iff
`net_pay` is present and strictly positive and `gross_pay` is present
and strictly positive; the legacy helper
`is_total_compensation_valid` agrees on present values. -/
theorem C9_total_compensation_valid_iff (cfg : Config) (fr : FieldRecord)
    (mi : ManualShiftInput) :
    ((perform_compliance_checks cfg fr mi).total_compensation_valid = true
      ↔ (∃ n, fr.net_pay = some n ∧ 0 < n) ∧ (∃ g, fr.gross_pay = some g ∧ 0 < g)) ∧
    (∀ n g : ℚ, is_total_compensation_valid (some n) (some g)
      = Except.ok (decide (0 < n) && decide (0 < g))) := by
  refine ⟨?_, ?_⟩
  · rw [tcv_eq]
    cases hnp : fr.net_pay <;> cases hgp : fr.gross_pay <;> simp
  · intro n g
    cases h : decide ((0 : ℚ) < n) <;>
      simp [is_total_compensation_valid, pyGtNum, h, Bind.bind, Except.bind, pure, Except.pure]

/-- C10: two distinct handles that both contain a slash and share
their last two slash-separated segments get the same document ID (the
hash of exactly those two joined segments, for every hash behaviour),
and a status write under one handle lands on — and overwrites — the
entry read back under the other. -/
theorem C10_docid_collision (md5 : String → String) (u v : String) (huv : u ≠ v)
    (hu : u.data.contains ('/') = true) (hv : v.data.contains ('/') = true)
    (hseg : lastTwoSegments u = lastTwoSegments v) :
    generate_document_id md5 u = generate_document_id md5 v ∧
    generate_document_id md5 u = md5 (String.intercalate ("/") (lastTwoSegments u)) ∧
    ∀ (store : String → Option String) (statusRec : String),
      update_processing_status md5 store v statusRec (generate_document_id md5 u)
        = some statusRec := by
  have keyu := generate_document_id_normalized md5 u hu
  have keyv := generate_document_id_normalized md5 v hv
  have hids : generate_document_id md5 u = generate_document_id md5 v := by
    rw [keyu, keyv, hseg]
  refine ⟨hids, keyu, ?_⟩
  intro store statusRec
  unfold update_processing_status
  rw [if_pos hids]

/-- C10 witness: the distinct handles `a/b/c` and `x/b/c` share the
segments `b/c` and collide on one document ID. -/
theorem C10_witness :
    generate_document_id (fun s => String.append ("h") s) ("a/b/c")
      = generate_document_id (fun s => String.append ("h") s) ("x/b/c") := by
  exact (C10_docid_collision (fun s => String.append ("h") s) ("a/b/c") ("x/b/c")
    (by decide) (by decide) (by decide) (by decide)).1
